import Mathlib

/-!
Verification of the tfltt timetable renderer and station/line resolver.

The definitions below are a shallow embedding of the Go source:
`timetable_renderer.go` (timetable model builder, text renderer, arrival
calculator) and the stop resolver (`getLinesAndStops`,
`getSpecificIDsFromChildren`).  Go machine integers are modelled as `Int`
with Go's truncating division (`Int.tdiv` / `Int.tmod`), Go `float64`
offsets as `ℚ`, Go maps as functions into `Option`, Go strings as `String`
viewed as a list of characters, and panics as `Option` failure.
-/

/-! ### Go primitive helpers -/

/-- Embedding of Go `strings.HasPrefix`. -/
def strStartsWith (pre s : String) : Bool := pre.data.isPrefixOf s.data

/-- Concatenation of the pieces written to a `strings.Builder`. -/
def joinAll : List String → String
  | [] => ""
  | s :: rest => s ++ joinAll rest

/-- Value of a run of decimal digit characters. -/
def digitsToNat (ds : List Char) : Nat := ds.foldl (fun a c => 10 * a + (c.toNat - 48)) 0

/-- Helper for `scanInt`: the scanned value of a (possibly signed) digit
run.  An empty run is a syntax error and a value outside the 64-bit `int`
range is a range error of the underlying `strconv.ParseInt(tok, 10, 64)`;
in both cases `fmt` reports an error and never assigns the operand, so the
target keeps its zero value. -/
def scanDigits (neg : Bool) (ds : List Char) : Int :=
  if ds.isEmpty then 0
  else
    let v : Int := if neg then -(digitsToNat ds : Int) else (digitsToNat ds : Int)
    if v > 9223372036854775807 ∨ v < -9223372036854775808 then 0 else v

/-- Embedding of `fmt.Sscanf(s, "%d", &h)` with `h` initialised to `0` (a
64-bit `int`, as on the deployment platforms): skip leading whitespace, read
an optional sign and a maximal run of digits; on any failure — no digits, or
a value out of the 64-bit range — the target keeps its zero value. -/
def scanInt (s : String) : Int :=
  match s.data.dropWhile (fun c => c.isWhitespace) with
  | '-' :: rest => scanDigits true (rest.takeWhile (fun c => c.isDigit))
  | '+' :: rest => scanDigits false (rest.takeWhile (fun c => c.isDigit))
  | cs => scanDigits false (cs.takeWhile (fun c => c.isDigit))

/-- Helper for `parseInt32`: strict digits after an optional sign. -/
def parseIntDigits (neg : Bool) (ds : List Char) : Int :=
  if ds.isEmpty then 0
  else if !ds.all (fun c => c.isDigit) then 0
  else
    let v : Int := if neg then -(digitsToNat ds : Int) else (digitsToNat ds : Int)
    if v > 2147483647 then 2147483647 else if v < -2147483648 then -2147483648 else v

/-- Embedding of `strconv.ParseInt(s, 10, 32)` with the error ignored and the
result converted with `int32(...)`: the whole string must be an optional sign
followed by digits, the value is clamped on range error, and any syntax error
yields the zero value. -/
def parseInt32 (s : String) : Int :=
  match s.data with
  | '-' :: rest => parseIntDigits true rest
  | '+' :: rest => parseIntDigits false rest
  | cs => parseIntDigits false cs

/-- Embedding of Go `int(f)` on a `float64`: truncation toward zero. -/
def ratTrunc (q : ℚ) : Int := q.num.tdiv (q.den : Int)

/-- Embedding of Go `fmt.Sprintf("%02d", n)` for `Int`. -/
def pad2 (n : Int) : String :=
  let s := toString n
  if s.length < 2 then "0" ++ s else s

/-- Zero padding to two digits on `Nat`, following the specification text. -/
def padNat2 (n : Nat) : String :=
  let s := toString n
  if s.length < 2 then "0" ++ s else s

/-- Embedding of Go `fmt.Fprintf("%-*s", w, s)`: left justification padded
with spaces; a negative width is taken as the `-` flag with positive width. -/
def padRight (w : Int) (s : String) : String :=
  if s.data.length < w.natAbs then s ++ String.mk (List.replicate (w.natAbs - s.data.length) ' ')
  else s

/-! ### Arrival calculator (`calculateArrivalTime`, timetable_renderer.go:153-164) -/

/-- Embedding of `calculateArrivalTime`.  Go `/` and `%` on `int` truncate
toward zero, hence `Int.tdiv` and `Int.tmod`. -/
def calculateArrivalTime (hour minute : String) (offsetMinutes : ℚ) : String :=
  let h := scanInt hour
  let m := scanInt minute
  let totalMinutes := h * 60 + m + ratTrunc offsetMinutes
  let newH := (totalMinutes.tdiv 60).tmod 24
  let newM := totalMinutes.tmod 60
  pad2 newH ++ ":" ++ pad2 newM

/-- The claim's arrival formula, following the specification text: with `h`
and `m` leniently parsed and the offset truncated toward zero,
`total = h*60 + m + offset`, `HH = (total / 60) mod 24`, `MM = total mod 60`,
both zero-padded to two digits — with `/` and `mod` read mathematically
(Euclidean division and nonnegative remainder). -/
def arrivalFormula (hour minute : String) (off : ℚ) : String :=
  let total := scanInt hour * 60 + scanInt minute + ratTrunc off
  padNat2 (((total.ediv 60).emod 24).toNat) ++ ":" ++ padNat2 ((total.emod 60).toNat)

/-! ### Timetable data model (tfl/models, as used by the renderer) -/

structure NamedStop where
  ID : String
  Name : String
  deriving DecidableEq

structure TflInterval where
  StopID : String
  TimeToArrival : ℚ
  deriving DecidableEq

structure StationInterval where
  ID : String
  Intervals : List TflInterval
  deriving DecidableEq

structure Journey where
  IntervalID : Int
  Hour : String
  Minute : String
  deriving DecidableEq

structure Schedule where
  Name : String
  KnownJourneys : List Journey
  deriving DecidableEq

structure Route where
  StationIntervals : List StationInterval
  Schedules : List Schedule
  deriving DecidableEq

structure Timetable where
  DepartureStopID : String
  Routes : List Route
  deriving DecidableEq

structure TimetableResponse where
  LineName : String
  Timetable : Option Timetable
  Stops : List NamedStop
  Stations : List NamedStop
  deriving DecidableEq

structure stopInfo where
  id : String
  name : String
  deriving DecidableEq

/-! Go maps are modelled as functions into `Option`. -/

def fupd {β : Type} (f : String → Option β) (k : String) (v : β) : String → Option β :=
  fun x => if x = k then some v else f x

def femp {β : Type} : String → Option β := fun _ => none

def iupd {β : Type} (f : Int → Option β) (k : Int) (v : β) : Int → Option β :=
  fun x => if x = k then some v else f x

def iemp {β : Type} : Int → Option β := fun _ => none

/-- Go map read `m[k]` on a `map[string]string` returns the zero value `""`
when the key is missing. -/
def lookupName (f : String → Option String) (k : String) : String := (f k).getD ""

/-! ### Model builder (`NewTimetableRenderer`, timetable_renderer.go:24-90) -/

/-- Name lookup map: stops first, then stations not already present with an
`" [S]"` suffix (timetable_renderer.go:46-54). -/
def buildStationNames (resp : TimetableResponse) : String → Option String :=
  let fromStops := resp.Stops.foldl (fun f s => fupd f s.ID s.Name) femp
  resp.Stations.foldl
    (fun f s => if (f s.ID).isSome then f else fupd f s.ID (s.Name ++ " [S]")) fromStops

def mkStop (names : String → Option String) (i : String) : stopInfo :=
  { id := i, name := lookupName names i }

/-- Inner loop over `si.Intervals` (timetable_renderer.go:72-78): update the
offset map, and append each not-yet-seen stop. -/
def procIvs (names : String → Option String) :
    List TflInterval → (String → Option ℚ) → List stopInfo → List String →
    ((String → Option ℚ) × List stopInfo × List String)
  | [], m, stops, added => (m, stops, added)
  | iv :: rest, m, stops, added =>
    if iv.StopID ∈ added then
      procIvs names rest (fupd m iv.StopID iv.TimeToArrival) stops added
    else
      procIvs names rest (fupd m iv.StopID iv.TimeToArrival)
        (stops ++ [mkStop names iv.StopID]) (iv.StopID :: added)

/-- Outer loop over `targetRoute.StationIntervals` (timetable_renderer.go:65-80):
each group's map starts as `{depID: 0}` and is stored under the parsed id. -/
def procGroups (names : String → Option String) (depID : String) :
    List StationInterval → List stopInfo → List String → (Int → Option (String → Option ℚ)) →
    (List stopInfo × List String × (Int → Option (String → Option ℚ)))
  | [], stops, added, idata => (stops, added, idata)
  | si :: rest, stops, added, idata =>
    let r := procIvs names si.Intervals (fupd femp depID 0) stops added
    procGroups names depID rest r.2.1 r.2.2 (iupd idata (parseInt32 si.ID) r.1)

structure TimetableRenderer where
  timetable : TimetableResponse
  targetRoute : Route
  schedule : Schedule
  stationNames : String → Option String
  stops : List stopInfo
  intervalData : Int → Option (String → Option ℚ)

def mkRenderer (resp : TimetableResponse) (tt : Timetable) (targetRoute : Route)
    (schedule : Schedule) : TimetableRenderer :=
  let stationNames := buildStationNames resp
  let depID := tt.DepartureStopID
  let r := procGroups stationNames depID targetRoute.StationIntervals
    [mkStop stationNames depID] [depID] iemp
  { timetable := resp, targetRoute := targetRoute, schedule := schedule,
    stationNames := stationNames, stops := r.1, intervalData := r.2.2 }

/-- The first route that has at least one schedule (timetable_renderer.go:31-36). -/
def findRouteWithSchedules (routes : List Route) : Option Route :=
  routes.find? (fun r => !r.Schedules.isEmpty)

/-- Embedding of `NewTimetableRenderer` (timetable_renderer.go:24-90).  The
two `fmt.Errorf` messages are kept verbatim.  The inner `[]` schedule case is
unreachable (the route was chosen for having schedules). -/
def NewTimetableRenderer (resp : TimetableResponse) : Except String TimetableRenderer :=
  match resp.Timetable with
  | none => .error "no timetable data available"
  | some tt =>
    if tt.Routes.isEmpty then .error "no timetable data available"
    else
      match findRouteWithSchedules tt.Routes with
      | none => .error "no schedules found in any route"
      | some targetRoute =>
        match targetRoute.Schedules with
        | [] => .error "no schedules found in any route"
        | schedule :: _ => .ok (mkRenderer resp tt targetRoute schedule)

/-! ### Text renderer (`RenderAsText`, timetable_renderer.go:92-146) -/

/-- Station-name truncation (timetable_renderer.go:114-117).  `none` models
the Go panic when the slice bound `stationColWidth-3` is negative. -/
def truncName (w : Int) (name : String) : Option String :=
  if (name.data.length : Int) > w then
    if 0 ≤ w - 3 then some (String.mk (name.data.take (w - 3).toNat) ++ "...") else none
  else some name

/-- Cell contents for one (stop, journey) pair (timetable_renderer.go:120-140).
A missing interval id falls back to the table stored under the parsed id of
the first station interval; a Go map read without comma-ok yields the zero
value (`nil` map, modelled by `femp`) when the key is absent. -/
def renderCellContent (tr : TimetableRenderer) (j : Journey) (s : stopInfo) : String :=
  match tr.intervalData j.IntervalID with
  | some offsets =>
    match offsets s.id with
    | some off => calculateArrivalTime j.Hour j.Minute off
    | none => "---"
  | none =>
    match tr.targetRoute.StationIntervals with
    | [] => "err"
    | si0 :: _ =>
      match (tr.intervalData (parseInt32 si0.ID)).getD femp s.id with
      | some off => calculateArrivalTime j.Hour j.Minute off
      | none => "---"

/-- One `" | %-10s"` cell (timetable_renderer.go:134-139, colWidth = 10). -/
def renderCell (tr : TimetableRenderer) (j : Journey) (s : stopInfo) : String :=
  " | " ++ padRight 10 (renderCellContent tr j s)

/-- Journey list truncation (timetable_renderer.go:97-100). -/
def truncJourneys (journeys : List Journey) (maxJourneys : Int) : List Journey :=
  if 0 < maxJourneys ∧ (journeys.length : Int) > maxJourneys then
    journeys.take maxJourneys.toNat
  else journeys

/-- Embedding of `strings.Repeat("-", n)`: panics on a negative count. -/
def dashLine (n : Int) : Option String :=
  if 0 ≤ n then some (String.mk (List.replicate n.toNat '-')) else none

/-- The stop rows (timetable_renderer.go:113-143). -/
def rowsText (tr : TimetableRenderer) (journeys : List Journey) (w : Int) :
    List stopInfo → Option String
  | [] => some ""
  | s :: rest =>
    match truncName w s.name with
    | none => none
    | some nm =>
      match rowsText tr journeys w rest with
      | none => none
      | some r =>
        some (padRight w nm ++ joinAll (journeys.map (fun j => renderCell tr j s)) ++ "\n" ++ r)

/-- The `"Train %d"` header cells (timetable_renderer.go:105-107). -/
def trainHeaders (n : Nat) : String :=
  joinAll ((List.range n).map (fun i => " | " ++ padRight 10 ("Train " ++ toString (i + 1))))

/-- Embedding of `RenderAsText` (timetable_renderer.go:92-146).  `none`
models a panic (nil `Timetable` dereference, negative repeat count, or the
negative slice bound inside the name truncation). -/
def RenderAsText (tr : TimetableRenderer) (maxJourneys stationColWidth : Int) : Option String :=
  match tr.timetable.Timetable with
  | none => none
  | some tt =>
    let journeys := truncJourneys tr.schedule.KnownJourneys maxJourneys
    let top := "Timetable for " ++ tr.timetable.LineName ++ " at " ++ tt.DepartureStopID ++
      "\n\n" ++ "Schedule: " ++ tr.schedule.Name ++ "\n"
    let header := padRight stationColWidth "Station" ++ trainHeaders journeys.length ++ "\n"
    match dashLine (stationColWidth + (journeys.length : Int) * 13) with
    | none => none
    | some dashes =>
      match rowsText tr journeys stationColWidth tr.stops with
      | none => none
      | some rows => some (top ++ header ++ dashes ++ "\n" ++ rows)

/-- Build and render, tagging builder errors so that `none` unambiguously
means a rendering panic. -/
def renderBuilt (resp : TimetableResponse) (mj w : Int) : Option String :=
  match NewTimetableRenderer resp with
  | .ok tr => RenderAsText tr mj w
  | .error e => some ("builder error: " ++ e)

/-! ### Stop resolver (`getLinesAndStops`, part_003:635-719;
`getSpecificIDsFromChildren`, part_003:721-731) -/

structure LineRef where
  ID : String
  deriving DecidableEq

structure SearchMatch where
  ID : String
  deriving DecidableEq

inductive Place where
  | mk (ID NaptanID : String) (Children : List Place) (Lines : List LineRef)

def Place.ID : Place → String
  | .mk i _ _ _ => i

def Place.NaptanID : Place → String
  | .mk _ n _ _ => n

def Place.Children : Place → List Place
  | .mk _ _ c _ => c

def Place.Lines : Place → List LineRef
  | .mk _ _ _ l => l

structure LineStopPair where
  LineID : String
  StopPointID : String
  deriving DecidableEq

/-- Embedding of `getSpecificIDsFromChildren`: collect `940G`-prefixed ids,
recursing into every child list. -/
def getSpecificIDsFromChildren : List Place → List String
  | [] => []
  | Place.mk i _ c _ :: ps =>
    (if strStartsWith "940G" i then [i] else []) ++
      getSpecificIDsFromChildren c ++ getSpecificIDsFromChildren ps

/-- First result loop of `getLinesAndStops` (part_003:677-689): skip
`"HUBAMR"` unless the query is `"Amersham"`, expand hubs, keep platforms. -/
def collectNaptans (stationName : String) : List Place → List String
  | [] => []
  | sp :: rest =>
    if sp.ID = "HUBAMR" ∧ stationName ≠ "Amersham" then collectNaptans stationName rest
    else if strStartsWith "HUB" sp.ID then
      getSpecificIDsFromChildren sp.Children ++ collectNaptans stationName rest
    else sp.ID :: collectNaptans stationName rest

/-- Second result loop of `getLinesAndStops` (part_003:704-715): skip
hub-prefixed results except `"HUBAMR"` on an `"Amersham"` query, and emit one
pair per line with the stop point's NaptanID. -/
def collectPairs (stationName : String) : List Place → List LineStopPair
  | [] => []
  | sp :: rest =>
    if strStartsWith "HUB" sp.ID ∧ (stationName ≠ "Amersham" ∨ sp.ID ≠ "HUBAMR") then
      collectPairs stationName rest
    else sp.Lines.map (fun l => LineStopPair.mk l.ID sp.NaptanID) ++ collectPairs stationName rest

/-- Singleton workaround before the first batch call (part_003:656-664). -/
def idsWithWorkaround (ids : List String) : List String :=
  match ids with
  | [i] => [i, if i = "HUBAMR" then "HUBRMD" else "HUBAMR"]
  | _ => ids

/-- Singleton workaround before the second batch call (part_003:694-697). -/
def naptansWithWorkaround (l : List String) : List String :=
  if l.length = 1 then l ++ ["HUBAMR"] else l

/-- Embedding of `getLinesAndStops` with the remote service modelled by the
oracles `search` and `get`. -/
def getLinesAndStops (search : String → String → List SearchMatch)
    (get : List String → List Place) (stationName mode : String) : List LineStopPair :=
  let found := search stationName mode
  if found.isEmpty then []
  else
    let payload := get (idsWithWorkaround (found.map (fun m => m.ID)))
    let naptanIDs := collectNaptans stationName payload
    if naptanIDs.isEmpty then []
    else collectPairs stationName (get (naptansWithWorkaround naptanIDs))

/-! ### Specification-side definitions (from the spec's words, for
comparison with the embedded code) -/

/-- Order of first appearance: the sublist of ids not yet seen, each kept at
its first occurrence. -/
def firstNew : List String → List String → List String
  | _, [] => []
  | seen, x :: xs => if x ∈ seen then firstNew seen xs else x :: firstNew (x :: seen) xs

/-- The seen set after scanning a list of ids. -/
def seenAfter : List String → List String → List String
  | seen, [] => seen
  | seen, x :: xs => if x ∈ seen then seenAfter seen xs else seenAfter (x :: seen) xs

/-- The offset map produced by scanning a list of interval entries. -/
def procMap : List TflInterval → (String → Option ℚ) → (String → Option ℚ)
  | [], m => m
  | iv :: rest, m => procMap rest (fupd m iv.StopID iv.TimeToArrival)

/-- All stop identifiers of a route's interval groups, in scan order. -/
def allIntervalStopIDs (r : Route) : List String :=
  (r.StationIntervals.map (fun si => si.Intervals.map (fun iv => iv.StopID))).flatten

/-- Specification-side offset table of one interval group: the last listed
offset of each stop, with the departure stop defaulting to `0`. -/
def specGroupOffsets (depID : String) (ivs : List TflInterval) : String → Option ℚ :=
  fun x =>
    match ivs.reverse.find? (fun iv => iv.StopID == x) with
    | some iv => some iv.TimeToArrival
    | none => if x = depID then some 0 else none

/-- All descendant identifiers of a forest of places, in traversal order. -/
def descendantIDs : List Place → List String
  | [] => []
  | Place.mk i _ c _ :: ps => i :: (descendantIDs c ++ descendantIDs ps)

/-- Claim-side predicate: the response has a route with at least one
schedule. -/
def hasScheduleRoute (resp : TimetableResponse) : Prop :=
  ∃ tt, resp.Timetable = some tt ∧ ∃ r, r ∈ tt.Routes ∧ r.Schedules ≠ []

/-! ### Projections used to state closed counterexamples -/

def builtStopIds (resp : TimetableResponse) : Option (List String) :=
  (NewTimetableRenderer resp).toOption.map (fun tr => tr.stops.map (fun s => s.id))

def builtStopsLen (resp : TimetableResponse) : Option Nat :=
  (NewTimetableRenderer resp).toOption.map (fun tr => tr.stops.length)

def builtOffsetAt (resp : TimetableResponse) (k : Int) (x : String) : Option (Option (Option ℚ)) :=
  (NewTimetableRenderer resp).toOption.map (fun tr => (tr.intervalData k).map (fun m => m x))

def builtCell (resp : TimetableResponse) (j : Journey) (s : stopInfo) : Option String :=
  (NewTimetableRenderer resp).toOption.map (fun tr => renderCellContent tr j s)

/-! ### Lemmas about the builder folds -/

/-! ### Proof-side and concrete definitions -/

/-- The stop identifiers contributed by a list of station intervals. -/
def sisIDs (sis : List StationInterval) : List String :=
  (sis.map (fun si => si.Intervals.map (fun iv => iv.StopID))).flatten

/-- The interval-data map after the outer builder loop. -/
def idataAfter (depID : String) : List StationInterval →
    (Int → Option (String → Option ℚ)) → (Int → Option (String → Option ℚ))
  | [], idata => idata
  | si :: rest, idata =>
    idataAfter depID rest (iupd idata (parseInt32 si.ID) (procMap si.Intervals (fupd femp depID 0)))

def c9js : List Journey := [{ IntervalID := 1, Hour := "10", Minute := "00" },
  { IntervalID := 1, Hour := "10", Minute := "15" }]

def c10resp : TimetableResponse :=
  { LineName := "District",
    Timetable := some { DepartureStopID := "DEP", Routes := [
      { StationIntervals := [], Schedules := [ { Name := "S", KnownJourneys := [] } ] } ] },
    Stops := [ { ID := "DEP", Name := "Depart" } ],
    Stations := [] }

def c7resp : TimetableResponse :=
  { LineName := "District",
    Timetable := some { DepartureStopID := "DEP", Routes := [
      { StationIntervals := [], Schedules := [] },
      { StationIntervals := [], Schedules := [ { Name := "S", KnownJourneys := [] } ] } ] },
    Stops := [], Stations := [] }

def c2resp : TimetableResponse :=
  { LineName := "District",
    Timetable := some { DepartureStopID := "DEP", Routes := [
      { StationIntervals := [], Schedules := [ { Name := "S", KnownJourneys := [] } ] } ] },
    Stops := [], Stations := [] }

def c2route : Route :=
  { StationIntervals := [], Schedules := [ { Name := "S", KnownJourneys := [] } ] }

def c2wresp : TimetableResponse :=
  { LineName := "District",
    Timetable := some { DepartureStopID := "DEP", Routes := [
      { StationIntervals := [
          { ID := "1", Intervals := [ { StopID := "A", TimeToArrival := 5 },
                                      { StopID := "B", TimeToArrival := 9 } ] },
          { ID := "2", Intervals := [ { StopID := "B", TimeToArrival := 4 },
                                      { StopID := "C", TimeToArrival := 7 } ] } ],
        Schedules := [ { Name := "S", KnownJourneys := [] } ] } ] },
    Stops := [], Stations := [] }

def c2wtt : Timetable := { DepartureStopID := "DEP", Routes := [
  { StationIntervals := [
      { ID := "1", Intervals := [ { StopID := "A", TimeToArrival := 5 },
                                  { StopID := "B", TimeToArrival := 9 } ] },
      { ID := "2", Intervals := [ { StopID := "B", TimeToArrival := 4 },
                                  { StopID := "C", TimeToArrival := 7 } ] } ],
    Schedules := [ { Name := "S", KnownJourneys := [] } ] } ] }

def c2wroute : Route :=
  { StationIntervals := [
      { ID := "1", Intervals := [ { StopID := "A", TimeToArrival := 5 },
                                  { StopID := "B", TimeToArrival := 9 } ] },
      { ID := "2", Intervals := [ { StopID := "B", TimeToArrival := 4 },
                                  { StopID := "C", TimeToArrival := 7 } ] } ],
    Schedules := [ { Name := "S", KnownJourneys := [] } ] }

def c2wsched : Schedule := { Name := "S", KnownJourneys := [] }

def c3resp : TimetableResponse :=
  { LineName := "District",
    Timetable := some { DepartureStopID := "DEP", Routes := [
      { StationIntervals := [ { ID := "1", Intervals := [ { StopID := "DEP", TimeToArrival := 5 } ] } ],
        Schedules := [ { Name := "S", KnownJourneys := [] } ] } ] },
    Stops := [], Stations := [] }

def c3wresp : TimetableResponse :=
  { LineName := "District",
    Timetable := some { DepartureStopID := "DEP", Routes := [
      { StationIntervals := [ { ID := "1", Intervals := [ { StopID := "A", TimeToArrival := 5 } ] } ],
        Schedules := [ { Name := "S", KnownJourneys := [] } ] } ] },
    Stops := [], Stations := [] }

def c3wtt : Timetable := { DepartureStopID := "DEP", Routes := [
  { StationIntervals := [ { ID := "1", Intervals := [ { StopID := "A", TimeToArrival := 5 } ] } ],
    Schedules := [ { Name := "S", KnownJourneys := [] } ] } ] }

def c3wroute : Route :=
  { StationIntervals := [ { ID := "1", Intervals := [ { StopID := "A", TimeToArrival := 5 } ] } ],
    Schedules := [ { Name := "S", KnownJourneys := [] } ] }

def c3wsched : Schedule := { Name := "S", KnownJourneys := [] }

/-- Claim-side cell rule: arrival time when the stop has an offset in the
table, `"---"` otherwise. -/
def cellOf (j : Journey) (s : stopInfo) (offsets : String → Option ℚ) : String :=
  match offsets s.id with
  | some off => calculateArrivalTime j.Hour j.Minute off
  | none => "---"

def c6j : Journey := { IntervalID := 3, Hour := "10", Minute := "00" }

def c6s : stopInfo := { id := "A", name := "A" }

def c6si0 : StationInterval := { ID := "1", Intervals := [ { StopID := "A", TimeToArrival := 5 } ] }

def c6si1 : StationInterval := { ID := "01", Intervals := [ { StopID := "A", TimeToArrival := 8 } ] }

def c6sched : Schedule := { Name := "S", KnownJourneys := [c6j] }

def c6route : Route := { StationIntervals := [c6si0, c6si1], Schedules := [c6sched] }

def c6resp : TimetableResponse :=
  { LineName := "District",
    Timetable := some { DepartureStopID := "DEP", Routes := [c6route] },
    Stops := [], Stations := [] }

def c6wsched : Schedule := { Name := "S", KnownJourneys := [c6j] }

def c6wroute : Route := { StationIntervals := [], Schedules := [c6wsched] }

def c6wtt : Timetable := { DepartureStopID := "DEP", Routes := [c6wroute] }

def c6wresp : TimetableResponse :=
  { LineName := "District", Timetable := some c6wtt, Stops := [], Stations := [] }

def c4search : String → String → List SearchMatch :=
  fun q m => if q = "Amersham" ∧ m = "tube" then [{ ID := "HUBAMR" }] else []

def c4amr : Place := Place.mk "HUBAMR" "HUBAMR" [Place.mk "940GZZLUAMS" "940GZZLUAMS" [] []] []

def c4rmd : Place := Place.mk "HUBRMD" "HUBRMD" [Place.mk "940GZZLURMD" "940GZZLURMD" [] []] []

def c4amsPlat : Place := Place.mk "940GZZLUAMS" "940GZZLUAMS" [] [{ ID := "metropolitan" }]

def c4rmdPlat : Place := Place.mk "940GZZLURMD" "940GZZLURMD" [] [{ ID := "district" }]

def c4get : List String → List Place :=
  fun ids =>
    if ids = ["HUBAMR", "HUBRMD"] then [c4amr, c4rmd]
    else if ids = ["940GZZLUAMS", "940GZZLURMD"] then [c4amsPlat, c4rmdPlat]
    else []

def c4wamr : Place := Place.mk "HUBAMR" "HUBAMR" [] []

def c5search : String → String → List SearchMatch :=
  fun q m => if q = "Amersham" ∧ m = "tube" then [{ ID := "940GZZLUAMS" }] else []

def c5amsPlat : Place := Place.mk "940GZZLUAMS" "940GZZLUAMS" [] [{ ID := "metropolitan" }]

def c5amrHub : Place := Place.mk "HUBAMR" "HUBAMR" [] [{ ID := "metropolitan" }]

def c5get : List String → List Place :=
  fun ids => if ids = ["940GZZLUAMS", "HUBAMR"] then [c5amsPlat, c5amrHub] else []

def c5wsearch : String → String → List SearchMatch :=
  fun q m => if q = "Richmond" ∧ m = "tube" then [{ ID := "940GZZLURMD" }] else []

def c5wrmdPlat : Place := Place.mk "940GZZLURMD" "940GZZLURMD" [] [{ ID := "district" }]

def c5wamrHub : Place := Place.mk "HUBAMR" "HUBAMR" [] []

def c5wget : List String → List Place :=
  fun ids => if ids = ["940GZZLURMD", "HUBAMR"] then [c5wrmdPlat, c5wamrHub] else []

theorem fupd_self {β : Type} (f : String → Option β) (k : String) (v : β) :
    fupd f k v k = some v := by simp [fupd]

theorem fupd_ne {β : Type} (f : String → Option β) (k x : String) (v : β) (h : x ≠ k) :
    fupd f k v x = f x := by simp [fupd, h]

theorem iupd_self {β : Type} (f : Int → Option β) (k : Int) (v : β) :
    iupd f k v k = some v := by simp [iupd]

theorem iupd_ne {β : Type} (f : Int → Option β) (k x : Int) (v : β) (h : x ≠ k) :
    iupd f k v x = f x := by simp [iupd, h]

theorem allIntervalStopIDs_eq (r : Route) :
    allIntervalStopIDs r = sisIDs r.StationIntervals := rfl

theorem procIvs_eq (names : String → Option String) (ivs : List TflInterval)
    (m : String → Option ℚ) (stops : List stopInfo) (added : List String) :
    procIvs names ivs m stops added =
      (procMap ivs m,
       stops ++ (firstNew added (ivs.map (fun iv => iv.StopID))).map (mkStop names),
       seenAfter added (ivs.map (fun iv => iv.StopID))) := by
  induction ivs generalizing m stops added with
  | nil => simp [procIvs, procMap, firstNew, seenAfter]
  | cons iv rest ih =>
    by_cases h : iv.StopID ∈ added
    · simp [procIvs, procMap, firstNew, seenAfter, h, ih]
    · simp [procIvs, procMap, firstNew, seenAfter, h, ih]

theorem seenAfter_append (seen l1 l2 : List String) :
    seenAfter seen (l1 ++ l2) = seenAfter (seenAfter seen l1) l2 := by
  induction l1 generalizing seen with
  | nil => simp [seenAfter]
  | cons x xs ih =>
    by_cases h : x ∈ seen <;> simp [seenAfter, h, ih]

theorem firstNew_append (seen : List String) (l1 l2 : List String) :
    firstNew seen (l1 ++ l2) = firstNew seen l1 ++ firstNew (seenAfter seen l1) l2 := by
  induction l1 generalizing seen with
  | nil => simp [firstNew, seenAfter]
  | cons x xs ih =>
    by_cases h : x ∈ seen <;> simp [firstNew, seenAfter, h, ih]

theorem procGroups_eq (names : String → Option String) (depID : String)
    (sis : List StationInterval) (stops : List stopInfo) (added : List String)
    (idata : Int → Option (String → Option ℚ)) :
    procGroups names depID sis stops added idata =
      (stops ++ (firstNew added (sisIDs sis)).map (mkStop names),
       seenAfter added (sisIDs sis),
       idataAfter depID sis idata) := by
  induction sis generalizing stops added idata with
  | nil => simp [procGroups, sisIDs, firstNew, seenAfter, idataAfter]
  | cons si rest ih =>
    simp only [procGroups, procIvs_eq, idataAfter]
    rw [ih]
    simp [sisIDs, firstNew_append, seenAfter_append, List.map_append, List.append_assoc]

theorem mem_firstNew (x : String) (seen l : List String) :
    x ∈ firstNew seen l ↔ x ∈ l ∧ x ∉ seen := by
  induction l generalizing seen with
  | nil => simp [firstNew]
  | cons y ys ih =>
    by_cases h : y ∈ seen
    · simp only [firstNew, if_pos h, ih, List.mem_cons]
      constructor
      · rintro ⟨hx, hns⟩; exact ⟨Or.inr hx, hns⟩
      · rintro ⟨hx | hx, hns⟩
        · exact absurd (hx ▸ h) hns
        · exact ⟨hx, hns⟩
    · simp only [firstNew, if_neg h, List.mem_cons, ih]
      constructor
      · rintro (rfl | ⟨hx, hns⟩)
        · exact ⟨Or.inl rfl, h⟩
        · exact ⟨Or.inr hx, fun hc => hns (Or.inr hc)⟩
      · rintro ⟨rfl | hx, hns⟩
        · exact Or.inl rfl
        · by_cases hxy : x = y
          · exact Or.inl hxy
          · exact Or.inr ⟨hx, by simp [hxy, hns]⟩

theorem firstNew_nodup (seen l : List String) : (firstNew seen l).Nodup := by
  induction l generalizing seen with
  | nil => simp [firstNew]
  | cons y ys ih =>
    by_cases h : y ∈ seen
    · simpa [firstNew, h] using ih seen
    · simp only [firstNew, if_neg h, List.nodup_cons]
      refine ⟨fun hc => ?_, ih (y :: seen)⟩
      exact ((mem_firstNew y (y :: seen) ys).mp hc).2 (List.mem_cons_self y seen)

theorem firstNew_toFinset (seen l : List String) :
    (firstNew seen l).toFinset = l.toFinset \ seen.toFinset := by
  ext x
  simp [mem_firstNew]

theorem procMap_eq_find (ivs : List TflInterval) (base : String → Option ℚ) (x : String) :
    procMap ivs base x =
      match ivs.reverse.find? (fun iv => iv.StopID == x) with
      | some iv => some iv.TimeToArrival
      | none => base x := by
  induction ivs generalizing base with
  | nil => simp [procMap]
  | cons iv rest ih =>
    simp only [procMap, ih, List.reverse_cons, List.find?_append]
    cases hf : rest.reverse.find? (fun iv => iv.StopID == x) with
    | some iv0 => simp
    | none =>
      simp only [Option.none_or]
      by_cases hx : iv.StopID = x
      · simp [List.find?, hx, fupd]
      · have hb : (iv.StopID == x) = false := by simpa using hx
        have hx' : ¬ x = iv.StopID := fun h => hx h.symm
        simp [List.find?, hb, fupd, hx']

theorem procMap_eq_spec (depID : String) (ivs : List TflInterval) :
    procMap ivs (fupd femp depID 0) = specGroupOffsets depID ivs := by
  funext x
  rw [procMap_eq_find, specGroupOffsets]
  cases ivs.reverse.find? (fun iv => iv.StopID == x) with
  | some iv => rfl
  | none => simp [fupd, femp]

theorem idataAfter_eq (depID : String) (sis : List StationInterval)
    (idata : Int → Option (String → Option ℚ)) (k : Int) :
    idataAfter depID sis idata k =
      match sis.reverse.find? (fun si => parseInt32 si.ID == k) with
      | some si => some (specGroupOffsets depID si.Intervals)
      | none => idata k := by
  induction sis generalizing idata with
  | nil => simp [idataAfter]
  | cons si rest ih =>
    simp only [idataAfter, ih, List.reverse_cons, List.find?_append]
    cases hf : rest.reverse.find? (fun si => parseInt32 si.ID == k) with
    | some si0 => simp
    | none =>
      simp only [Option.none_or]
      by_cases hk : parseInt32 si.ID = k
      · simp [List.find?, hk, iupd, procMap_eq_spec]
      · have hb : (parseInt32 si.ID == k) = false := by simpa using hk
        have hk' : ¬ k = parseInt32 si.ID := fun h => hk h.symm
        simp [List.find?, hb, iupd, hk']

/-- Every table stored in `idataAfter` comes from some station interval. -/
theorem idataAfter_some_elim (depID : String) (sis : List StationInterval) (k : Int)
    (m : String → Option ℚ)
    (h : idataAfter depID sis iemp k = some m) :
    ∃ si, si ∈ sis ∧ parseInt32 si.ID = k ∧ m = specGroupOffsets depID si.Intervals := by
  rw [idataAfter_eq] at h
  cases hf : sis.reverse.find? (fun si => parseInt32 si.ID == k) with
  | none => rw [hf] at h; exact absurd h (by simp [iemp])
  | some si =>
    rw [hf] at h
    refine ⟨si, List.mem_reverse.mp (List.mem_of_find?_eq_some hf), ?_, ?_⟩
    · simpa using List.find?_some hf
    · exact (Option.some_injective _ h).symm

/-- Every station interval's parsed id has a stored table. -/
theorem idataAfter_mem_isSome (depID : String) (sis : List StationInterval)
    (si : StationInterval) (h : si ∈ sis) :
    (idataAfter depID sis iemp (parseInt32 si.ID)).isSome = true := by
  rw [idataAfter_eq]
  cases hf : sis.reverse.find? (fun si0 => parseInt32 si0.ID == parseInt32 si.ID) with
  | some si0 => simp
  | none =>
    rw [List.find?_eq_none] at hf
    exact absurd (by simp : (parseInt32 si.ID == parseInt32 si.ID) = true)
      (by simpa using hf si (List.mem_reverse.mpr h))

/-- With pairwise distinct parsed ids, the table stored under the first
group's parsed id is the first group's own table. -/
theorem idataAfter_head_of_nodup (depID : String) (si0 : StationInterval)
    (rest : List StationInterval)
    (hnd : ((si0 :: rest).map (fun si => parseInt32 si.ID)).Nodup) :
    idataAfter depID (si0 :: rest) iemp (parseInt32 si0.ID) =
      some (specGroupOffsets depID si0.Intervals) := by
  rw [idataAfter_eq]
  have hrest : rest.reverse.find? (fun si => parseInt32 si.ID == parseInt32 si0.ID) = none := by
    rw [List.find?_eq_none]
    intro si hmem hb
    have hne : parseInt32 si.ID ≠ parseInt32 si0.ID := by
      have h0 : parseInt32 si0.ID ∉ rest.map (fun si => parseInt32 si.ID) :=
        (List.nodup_cons.mp (by simpa using hnd)).1
      intro he
      exact h0 (he ▸ List.mem_map_of_mem _ (List.mem_reverse.mp hmem))
    exact hne (by simpa using hb)
  simp only [List.reverse_cons, List.find?_append, hrest, Option.none_or]
  simp [List.find?]

/-- Inversion of a successful `NewTimetableRenderer` run. -/
theorem build_ok_elim {resp : TimetableResponse} {tr : TimetableRenderer}
    (h : NewTimetableRenderer resp = .ok tr) :
    ∃ tt targetRoute schedule rest,
      resp.Timetable = some tt ∧ tt.Routes.isEmpty = false ∧
      findRouteWithSchedules tt.Routes = some targetRoute ∧
      targetRoute.Schedules = schedule :: rest ∧
      tr = mkRenderer resp tt targetRoute schedule := by
  cases hT : resp.Timetable with
  | none => simp [NewTimetableRenderer, hT] at h
  | some tt =>
    by_cases hE : tt.Routes.isEmpty
    · simp [NewTimetableRenderer, hT, hE] at h
    · cases hF : findRouteWithSchedules tt.Routes with
      | none => simp [NewTimetableRenderer, hT, hE, hF] at h
      | some targetRoute =>
        cases hS : targetRoute.Schedules with
        | nil => simp [NewTimetableRenderer, hT, hE, hF, hS] at h
        | cons schedule rest =>
          have htr : tr = mkRenderer resp tt targetRoute schedule := by
            have h2 := h
            simp [NewTimetableRenderer, hT, hE, hF, hS] at h2
            exact h2.symm
          exact ⟨tt, targetRoute, schedule, rest, rfl, by simpa using hE, hF, hS, htr⟩

theorem mkRenderer_timetable (resp : TimetableResponse) (tt : Timetable) (route : Route)
    (sched : Schedule) : (mkRenderer resp tt route sched).timetable = resp := rfl

theorem mkRenderer_targetRoute (resp : TimetableResponse) (tt : Timetable) (route : Route)
    (sched : Schedule) : (mkRenderer resp tt route sched).targetRoute = route := rfl

theorem mkRenderer_schedule (resp : TimetableResponse) (tt : Timetable) (route : Route)
    (sched : Schedule) : (mkRenderer resp tt route sched).schedule = sched := rfl

theorem mkRenderer_stops (resp : TimetableResponse) (tt : Timetable) (route : Route)
    (sched : Schedule) :
    (mkRenderer resp tt route sched).stops =
      mkStop (buildStationNames resp) tt.DepartureStopID ::
        (firstNew [tt.DepartureStopID] (sisIDs route.StationIntervals)).map
          (mkStop (buildStationNames resp)) := by
  show (procGroups (buildStationNames resp) tt.DepartureStopID route.StationIntervals
      [mkStop (buildStationNames resp) tt.DepartureStopID] [tt.DepartureStopID] iemp).1 = _
  rw [procGroups_eq]
  simp

theorem mkRenderer_intervalData (resp : TimetableResponse) (tt : Timetable) (route : Route)
    (sched : Schedule) :
    (mkRenderer resp tt route sched).intervalData =
      idataAfter tt.DepartureStopID route.StationIntervals iemp := by
  show (procGroups (buildStationNames resp) tt.DepartureStopID route.StationIntervals
      [mkStop (buildStationNames resp) tt.DepartureStopID] [tt.DepartureStopID] iemp).2.2 = _
  rw [procGroups_eq]

/-- A successful `find?` splits the list at the first hit. -/
theorem find?_some_split {α : Type} (p : α → Bool) (l : List α) (a : α)
    (h : l.find? p = some a) :
    ∃ pre post, l = pre ++ a :: post ∧ (∀ x ∈ pre, p x = false) ∧ p a = true := by
  induction l with
  | nil => exact absurd h (by simp)
  | cons b bs ih =>
    by_cases hb : p b
    · refine ⟨[], bs, ?_, by simp, ?_⟩
      · have : b = a := by simpa [List.find?, hb] using h
        simp [this]
      · have : b = a := by simpa [List.find?, hb] using h
        exact this ▸ hb
    · have h' : bs.find? p = some a := by simpa [List.find?, hb] using h
      obtain ⟨pre, post, he, hpre, hpa⟩ := ih h'
      refine ⟨b :: pre, post, by simp [he], ?_, hpa⟩
      intro x hx
      rcases List.mem_cons.mp hx with rfl | hx
      · simpa using hb
      · exact hpre x hx

/-! ### Arithmetic bridge for the arrival calculator -/

/-- C1 counterexample: at hour `"00"`, minute `"00"` and offset `-5` the
total is `-5`; Go's truncating `/` and `%` keep the sign, so the code
renders `"00:-5"`, while the claim's zero-padded mod formula gives
`"23:55"`. -/
theorem arrival_negative_counterexample :
    calculateArrivalTime "00" "00" (-5) = "00:-5" ∧
    arrivalFormula "00" "00" (-5) = "23:55" ∧
    ("00:-5" : String) ≠ "23:55" :=
  ⟨by decide, by decide, by decide⟩

/-- C1 (amended): whenever the total minute count
`h*60 + m + trunc(offset)` is nonnegative — as it is for all well-formed
timetable data — `calculateArrivalTime` equals the specification's
zero-padded mod formula; the three quoted example equations hold.  (On a
negative total, Go's truncating division and remainder leak a sign into the
output instead of wrapping: see the counterexample.) -/
theorem calculateArrivalTime_spec :
    (∀ (hour minute : String) (off : ℚ),
        0 ≤ scanInt hour * 60 + scanInt minute + ratTrunc off →
        calculateArrivalTime hour minute off = arrivalFormula hour minute off) ∧
    calculateArrivalTime "23" "50" 20 = "00:10" ∧
    calculateArrivalTime "09" "05" 0 = "09:05" ∧
    calculateArrivalTime "bad" "30" 5 = "00:35" := by
  refine ⟨?_, by decide, by decide, by decide⟩
  intro hour minute off htotal
  have e : scanInt hour * 60 + scanInt minute + ratTrunc off =
      (((scanInt hour * 60 + scanInt minute + ratTrunc off).toNat : Nat) : Int) := by
    omega
  simp only [calculateArrivalTime, arrivalFormula]
  rw [e]
  rfl

/-- Witness: the general law of `calculateArrivalTime_spec` applied at a
concrete input. -/
theorem calculateArrivalTime_spec_witness :
    calculateArrivalTime "7" "8" 9 = arrivalFormula "7" "8" 9 :=
  calculateArrivalTime_spec.1 "7" "8" 9 (by decide)

/-! ### Renderer truncation and totality lemmas -/

theorem truncName_isSome_of_width (w : Int) (name : String) (h : 3 ≤ w) :
    (truncName w name).isSome = true := by
  unfold truncName
  by_cases hl : (name.data.length : Int) > w
  · rw [if_pos hl, if_pos (by omega)]; rfl
  · rw [if_neg hl]; rfl

theorem truncName_isSome_of_short (w : Int) (name : String)
    (h : (name.data.length : Int) ≤ w) : (truncName w name).isSome = true := by
  unfold truncName
  rw [if_neg (by omega)]
  rfl

theorem rowsText_isSome (tr : TimetableRenderer) (journeys : List Journey) (w : Int)
    (stops : List stopInfo) (h : ∀ s ∈ stops, (truncName w s.name).isSome = true) :
    (rowsText tr journeys w stops).isSome = true := by
  induction stops with
  | nil => rfl
  | cons s rest ih =>
    have hs := h s (List.mem_cons_self s rest)
    obtain ⟨nm, hnm⟩ := Option.isSome_iff_exists.mp hs
    have hr := ih (fun x hx => h x (List.mem_cons_of_mem s hx))
    obtain ⟨r, hr'⟩ := Option.isSome_iff_exists.mp hr
    simp [rowsText, hnm, hr']

theorem dashLine_isSome (n : Int) (h : 0 ≤ n) : (dashLine n).isSome = true := by
  unfold dashLine
  rw [if_pos h]
  rfl

theorem render_isSome (tr : TimetableRenderer) (mj w : Int)
    (htt : tr.timetable.Timetable.isSome = true) (h0 : 0 ≤ w)
    (hrows : ∀ s ∈ tr.stops, (truncName w s.name).isSome = true) :
    (RenderAsText tr mj w).isSome = true := by
  obtain ⟨tt, heq⟩ := Option.isSome_iff_exists.mp htt
  have hd : (0:Int) ≤ w + ((truncJourneys tr.schedule.KnownJourneys mj).length : Int) * 13 := by
    have : (0:Int) ≤ ((truncJourneys tr.schedule.KnownJourneys mj).length : Int) :=
      Int.natCast_nonneg _
    omega
  obtain ⟨d, hd'⟩ := Option.isSome_iff_exists.mp (dashLine_isSome _ hd)
  obtain ⟨rows, hrows'⟩ :=
    Option.isSome_iff_exists.mp (rowsText_isSome tr (truncJourneys tr.schedule.KnownJourneys mj) w tr.stops hrows)
  simp [RenderAsText, heq, hd', hrows']

/-- C8: a station name longer than the column width is truncated to the
first `columnWidth-3` characters plus `"..."`, with total length equal to
the column width; shorter names are shown unmodified.  Stated for the
well-defined regime `3 ≤ columnWidth` (see the C10 theorem for smaller
widths). -/
theorem name_truncation_law :
    ∀ (w : Int) (name : String), 3 ≤ w →
      (((name.data.length : Int) > w →
          truncName w name = some (String.mk (name.data.take (w - 3).toNat) ++ "...") ∧
          ((String.mk (name.data.take (w - 3).toNat) ++ "...").data.length : Int) = w) ∧
       ((name.data.length : Int) ≤ w → truncName w name = some name)) := by
  intro w name h3
  constructor
  · intro hl
    constructor
    · unfold truncName
      rw [if_pos hl, if_pos (by omega)]
    · have he : (String.mk (name.data.take (w - 3).toNat) ++ "...").data =
          name.data.take (w - 3).toNat ++ ['.', '.', '.'] := rfl
      rw [he]
      have htake : (name.data.take (w - 3).toNat).length = (w - 3).toNat := by
        rw [List.length_take]
        omega
      rw [List.length_append, htake]
      simp
      omega
  · intro hl
    unfold truncName
    rw [if_neg (by omega)]

/-- Witness: `name_truncation_law` applied to a 12-character name at width 10. -/
theorem name_truncation_law_witness :
    truncName 10 "ABCDEFGHIJKL" =
      some (String.mk ("ABCDEFGHIJKL".data.take ((10:Int) - 3).toNat) ++ "...") ∧
    ((String.mk ("ABCDEFGHIJKL".data.take ((10:Int) - 3).toNat) ++ "...").data.length : Int) = 10 :=
  (name_truncation_law 10 "ABCDEFGHIJKL" (by decide)).1 (by decide)

/-- C9 (amended): for a positive `maxJourneys` the rendered journey list is
the head truncation `take (min n maxJourneys)`; for `maxJourneys ≤ 0` the
condition `maxJourneys > 0` fails and the whole list is kept, not the first
`min(n, maxJourneys) = 0` journeys the claim would require. -/
theorem journeys_head_truncation :
    ∀ (js : List Journey) (mj : Int),
      (0 < mj → truncJourneys js mj = js.take (min js.length mj.toNat)) ∧
      (mj ≤ 0 → truncJourneys js mj = js) := by
  intro js mj
  constructor
  · intro hmj
    by_cases hlen : (js.length : Int) > mj
    · unfold truncJourneys
      rw [if_pos ⟨hmj, hlen⟩]
      have : min js.length mj.toNat = mj.toNat := min_eq_right (by omega)
      rw [this]
    · unfold truncJourneys
      rw [if_neg (by tauto)]
      have : min js.length mj.toNat = js.length := min_eq_left (by omega)
      rw [this, List.take_length]
  · intro hmj
    unfold truncJourneys
    rw [if_neg (by omega)]

/-- C9 counterexample: with `maxJourneys = 0` the code keeps both journeys,
while the claim's `min(number of journeys, maxJourneys) = 0` would keep
none. -/
theorem journeys_truncation_counterexample :
    truncJourneys c9js 0 = c9js ∧
    c9js.take (min c9js.length (Int.toNat 0)) = [] ∧
    c9js ≠ [] := by
  refine ⟨rfl, rfl, by decide⟩

/-- Witness: `journeys_head_truncation` applied at `maxJourneys = 1`. -/
theorem journeys_head_truncation_witness :
    truncJourneys c9js 1 = c9js.take (min c9js.length (Int.toNat 1)) :=
  (journeys_head_truncation c9js 1).1 (by decide)

/-- C10: `RenderAsText` is partial below width 3: on a built model whose
stop name is longer than the station column width 2 the truncation slice
`name[:stationColWidth-3]` has a negative bound and the render panics
(`none`), while any width of at least 3 — or a model whose stop names all
fit in a nonnegative width — renders successfully. -/
theorem render_partiality :
    renderBuilt c10resp 20 2 = none ∧
    (∀ (resp : TimetableResponse) (mj w : Int), 3 ≤ w →
      (NewTimetableRenderer resp).isOk = true → (renderBuilt resp mj w).isSome = true) ∧
    (∀ (resp : TimetableResponse) (tr : TimetableRenderer) (mj w : Int),
      NewTimetableRenderer resp = .ok tr → 0 ≤ w →
      (∀ s ∈ tr.stops, (s.name.data.length : Int) ≤ w) →
      (RenderAsText tr mj w).isSome = true) := by
  refine ⟨rfl, ?_, ?_⟩
  · intro resp mj w h3 hok
    cases hb : NewTimetableRenderer resp with
    | error e => rw [hb] at hok; exact absurd hok (by simp [Except.isOk, Except.toBool])
    | ok tr =>
      obtain ⟨tt, route, sched, rest, hT, _, _, _, htr⟩ := build_ok_elim hb
      have htt : tr.timetable.Timetable.isSome = true := by
        rw [htr, mkRenderer_timetable, hT]; rfl
      have hr := render_isSome tr mj w htt (by omega)
        (fun s _ => truncName_isSome_of_width w s.name h3)
      simpa [renderBuilt, hb] using hr
  · intro resp tr mj w hb h0 hshort
    obtain ⟨tt, route, sched, rest, hT, _, _, _, htr⟩ := build_ok_elim hb
    have htt : tr.timetable.Timetable.isSome = true := by
      rw [htr, mkRenderer_timetable, hT]; rfl
    exact render_isSome tr mj w htt h0
      (fun s hs => truncName_isSome_of_short w s.name (hshort s hs))

/-- Witness: `render_partiality` renders the same model successfully at
width 10. -/
theorem render_partiality_witness : (renderBuilt c10resp 20 10).isSome = true :=
  render_partiality.2.1 c10resp 20 10 (by decide) (by rfl)

/-- C7: the model builder fails if and only if the response has no route
containing at least one schedule (the spec's single builder failure,
`NoScheduleData`); on success it selects the first route (in response order)
that has at least one schedule and, within it, that route's first
schedule. -/
theorem builder_failure_iff_no_schedule :
    ∀ resp : TimetableResponse,
      ((NewTimetableRenderer resp).isOk = true ↔ hasScheduleRoute resp) ∧
      (∀ tr, NewTimetableRenderer resp = .ok tr →
        ∃ tt pre post rest, resp.Timetable = some tt ∧
          tt.Routes = pre ++ tr.targetRoute :: post ∧
          (∀ r ∈ pre, r.Schedules = []) ∧
          tr.targetRoute.Schedules = tr.schedule :: rest) := by
  intro resp
  constructor
  · constructor
    · intro hok
      cases hb : NewTimetableRenderer resp with
      | error e => rw [hb] at hok; exact absurd hok (by simp [Except.isOk, Except.toBool])
      | ok tr =>
        obtain ⟨tt, route, sched, rest, hT, hE, hF, hS, htr⟩ := build_ok_elim hb
        refine ⟨tt, hT, route, ?_, by simp [hS]⟩
        exact List.mem_of_find?_eq_some hF
    · rintro ⟨tt, hT, r, hmem, hne⟩
      have hE : tt.Routes.isEmpty = false := by
        rw [Bool.eq_false_iff]
        intro hc
        exact List.ne_nil_of_mem hmem (List.isEmpty_iff.mp hc)
      have hfind : (findRouteWithSchedules tt.Routes).isSome := by
        rw [findRouteWithSchedules, List.find?_isSome]
        exact ⟨r, hmem, by simpa [List.isEmpty_iff] using hne⟩
      obtain ⟨route, hF⟩ := Option.isSome_iff_exists.mp hfind
      have hne2 : route.Schedules ≠ [] := by
        have := List.find?_some hF
        simpa [List.isEmpty_iff] using this
      cases hS : route.Schedules with
      | nil => exact absurd hS hne2
      | cons sched rest =>
        have : NewTimetableRenderer resp = .ok (mkRenderer resp tt route sched) := by
          simp [NewTimetableRenderer, hT, hE, hF, hS]
        rw [this]
        rfl
  · intro tr hb
    obtain ⟨tt, route, sched, rest, hT, hE, hF, hS, htr⟩ := build_ok_elim hb
    obtain ⟨pre, post, hsplit, hpre, hpr⟩ := find?_some_split _ _ _ hF
    refine ⟨tt, pre, post, rest, hT, ?_, ?_, ?_⟩
    · rw [htr, mkRenderer_targetRoute]; exact hsplit
    · intro r hr
      have := hpre r hr
      simpa [List.isEmpty_iff] using this
    · rw [htr, mkRenderer_targetRoute, mkRenderer_schedule]; exact hS

/-- Witness: `builder_failure_iff_no_schedule` shows the builder succeeds on
a response whose second route carries a schedule. -/
theorem builder_failure_witness : (NewTimetableRenderer c7resp).isOk = true :=
  (builder_failure_iff_no_schedule c7resp).1.mpr
    ⟨{ DepartureStopID := "DEP", Routes := [
        { StationIntervals := [], Schedules := [] },
        { StationIntervals := [], Schedules := [ { Name := "S", KnownJourneys := [] } ] } ] },
      rfl,
      { StationIntervals := [], Schedules := [ { Name := "S", KnownJourneys := [] } ] },
      by decide, by decide⟩

theorem mkStop_id (names : String → Option String) (i : String) : (mkStop names i).id = i := rfl

/-- C2 (amended): the built stop sequence is the departure stop followed by
the remaining distinct stop identifiers of the interval groups in order of
first appearance; it has no duplicates, and its length is the number of
distinct identifiers in the set consisting of the departure stop together
with all identifiers appearing across the interval groups. -/
theorem stops_sequence_characterization :
    ∀ (resp : TimetableResponse) (tr : TimetableRenderer) (tt : Timetable),
      NewTimetableRenderer resp = .ok tr → resp.Timetable = some tt →
      (tr.stops.map (fun s => s.id) =
        tt.DepartureStopID :: firstNew [tt.DepartureStopID] (allIntervalStopIDs tr.targetRoute) ∧
       (tr.stops.map (fun s => s.id)).Nodup ∧
       tr.stops.length = (tt.DepartureStopID :: allIntervalStopIDs tr.targetRoute).toFinset.card) := by
  intro resp tr tt hb hT'
  obtain ⟨tt0, route, sched, rest, hT, hE, hF, hS, htr⟩ := build_ok_elim hb
  have htt : tt0 = tt := by rw [hT] at hT'; exact Option.some_injective _ hT'
  subst htt
  have hroute : tr.targetRoute = route := by rw [htr, mkRenderer_targetRoute]
  have hstops : tr.stops =
      mkStop (buildStationNames resp) tt0.DepartureStopID ::
        (firstNew [tt0.DepartureStopID] (sisIDs route.StationIntervals)).map
          (mkStop (buildStationNames resp)) := by
    rw [htr, mkRenderer_stops]
  have hids : tr.stops.map (fun s => s.id) =
      tt0.DepartureStopID :: firstNew [tt0.DepartureStopID] (sisIDs route.StationIntervals) := by
    rw [hstops]
    simp [List.map_map, Function.comp_def, mkStop_id]
  refine ⟨?_, ?_, ?_⟩
  · rw [hids, hroute, allIntervalStopIDs_eq]
  · rw [hids]
    refine List.nodup_cons.mpr ⟨?_, firstNew_nodup _ _⟩
    intro hc
    exact ((mem_firstNew _ _ _).mp hc).2 (List.mem_singleton.mpr rfl)
  · have hlen : tr.stops.length =
        (firstNew [tt0.DepartureStopID] (sisIDs route.StationIntervals)).length + 1 := by
      rw [hstops]; simp
    rw [hlen, hroute, allIntervalStopIDs_eq]
    have hcard : (firstNew [tt0.DepartureStopID] (sisIDs route.StationIntervals)).length =
        ((sisIDs route.StationIntervals).toFinset.erase tt0.DepartureStopID).card := by
      rw [← List.toFinset_card_of_nodup (firstNew_nodup _ _), firstNew_toFinset]
      congr 1
      ext x
      simp [and_comm]
    rw [hcard, List.toFinset_cons]
    have hins : insert tt0.DepartureStopID (sisIDs route.StationIntervals).toFinset =
        insert tt0.DepartureStopID
          ((sisIDs route.StationIntervals).toFinset.erase tt0.DepartureStopID) := by
      ext x
      by_cases hx : x = tt0.DepartureStopID <;> simp [hx]
    rw [hins, Finset.card_insert_of_not_mem (Finset.not_mem_erase _ _)]

/-- C2 counterexample: on an accepted response whose selected route has no
interval groups the built stop sequence has length 1 (the departure stop),
while the number of distinct stop identifiers appearing across all interval
groups is 0. -/
theorem stops_length_counterexample :
    builtStopsLen c2resp = some 1 ∧ (allIntervalStopIDs c2route).dedup.length = 0 ∧
    (1 : Nat) ≠ 0 :=
  ⟨rfl, rfl, by decide⟩

/-- Witness: `stops_sequence_characterization` applied to a concrete
two-group response. -/
theorem stops_sequence_witness :
    builtStopIds c2wresp =
      some ("DEP" :: firstNew ["DEP"] (allIntervalStopIDs c2wroute)) := by
  have h := (stops_sequence_characterization c2wresp
    (mkRenderer c2wresp c2wtt c2wroute c2wsched) c2wtt rfl rfl).1
  show some ((mkRenderer c2wresp c2wtt c2wroute c2wsched).stops.map (fun s => s.id)) =
    some ("DEP" :: firstNew ["DEP"] (allIntervalStopIDs c2wroute))
  rw [h]
  rfl

theorem specGroupOffsets_dep_isSome (depID : String) (ivs : List TflInterval) :
    (specGroupOffsets depID ivs depID).isSome = true := by
  unfold specGroupOffsets
  cases h : ivs.reverse.find? (fun iv => iv.StopID == depID) with
  | some iv => rfl
  | none => simp

theorem specGroupOffsets_dep_omitted (depID : String) (ivs : List TflInterval)
    (h : depID ∉ ivs.map (fun iv => iv.StopID)) :
    specGroupOffsets depID ivs depID = some 0 := by
  unfold specGroupOffsets
  have hf : ivs.reverse.find? (fun iv => iv.StopID == depID) = none := by
    rw [List.find?_eq_none]
    intro iv hmem hb
    exact h (by
      have : iv.StopID = depID := by simpa using hb
      exact this ▸ List.mem_map_of_mem _ (List.mem_reverse.mp hmem))
  rw [hf]
  simp

/-- C3 (amended): every offset table stored for an interval group of the
selected route is that group's table of last-listed offsets with the
departure stop defaulting to 0: the departure stop is always present, and
its offset is 0 whenever the group's upstream interval entries omit it (when
the entries list the departure stop, the listed offset overwrites the 0). -/
theorem offsets_dep_zero_when_omitted :
    ∀ (resp : TimetableResponse) (tr : TimetableRenderer) (tt : Timetable),
      NewTimetableRenderer resp = .ok tr → resp.Timetable = some tt →
      ((∀ (k : Int) (m : String → Option ℚ), tr.intervalData k = some m →
          ∃ si, si ∈ tr.targetRoute.StationIntervals ∧ parseInt32 si.ID = k ∧
            m = specGroupOffsets tt.DepartureStopID si.Intervals ∧
            (m tt.DepartureStopID).isSome = true ∧
            (tt.DepartureStopID ∉ si.Intervals.map (fun iv => iv.StopID) →
              m tt.DepartureStopID = some 0)) ∧
       (∀ si ∈ tr.targetRoute.StationIntervals,
          (tr.intervalData (parseInt32 si.ID)).isSome = true)) := by
  intro resp tr tt hb hT'
  obtain ⟨tt0, route, sched, rest, hT, hE, hF, hS, htr⟩ := build_ok_elim hb
  have htt : tt0 = tt := by rw [hT] at hT'; exact Option.some_injective _ hT'
  subst htt
  have hdata : tr.intervalData = idataAfter tt0.DepartureStopID route.StationIntervals iemp := by
    rw [htr, mkRenderer_intervalData]
  have hroute : tr.targetRoute = route := by rw [htr, mkRenderer_targetRoute]
  constructor
  · intro k m hm
    rw [hdata] at hm
    obtain ⟨si, hmem, hk, hspec⟩ := idataAfter_some_elim _ _ _ _ hm
    refine ⟨si, by rw [hroute]; exact hmem, hk, hspec, ?_, ?_⟩
    · rw [hspec]; exact specGroupOffsets_dep_isSome _ _
    · intro homit
      rw [hspec]
      exact specGroupOffsets_dep_omitted _ _ homit
  · intro si hmem
    rw [hdata]
    exact idataAfter_mem_isSome _ _ si (by rw [hroute] at hmem; exact hmem)

/-- C3 counterexample: when an interval group lists the departure stop with
offset 5, the stored table maps the departure stop to 5, not to 0 as the
claim's parenthetical requires. -/
theorem offsets_dep_counterexample :
    builtOffsetAt c3resp 1 "DEP" = some (some (some 5)) ∧ some (some (some (5:ℚ))) ≠ some (some (some (0:ℚ))) :=
  ⟨rfl, by decide⟩

/-- Witness: `offsets_dep_zero_when_omitted` gives offset 0 for the omitted
departure stop on a concrete response. -/
theorem offsets_dep_zero_witness : builtOffsetAt c3wresp 1 "DEP" = some (some (some 0)) := by
  have h := (offsets_dep_zero_when_omitted c3wresp
    (mkRenderer c3wresp c3wtt c3wroute c3wsched) c3wtt rfl rfl).1
  cases hm : (mkRenderer c3wresp c3wtt c3wroute c3wsched).intervalData 1 with
  | none =>
    have h2 := (offsets_dep_zero_when_omitted c3wresp
      (mkRenderer c3wresp c3wtt c3wroute c3wsched) c3wtt rfl rfl).2
      { ID := "1", Intervals := [ { StopID := "A", TimeToArrival := 5 } ] } (by decide)
    rw [show parseInt32 "1" = 1 from rfl, hm] at h2
    exact absurd h2 (by simp)
  | some m =>
    obtain ⟨si, hmem, hk, hspec, hsome, homit⟩ := h 1 m hm
    have hsi : si = { ID := "1", Intervals := [ { StopID := "A", TimeToArrival := 5 } ] } := by
      simpa [mkRenderer_targetRoute, c3wroute] using hmem
    have hz : m "DEP" = some 0 := by
      apply homit
      rw [hsi]
      decide
    show some (((mkRenderer c3wresp c3wtt c3wroute c3wsched).intervalData 1).map
      (fun m => m "DEP")) = some (some (some 0))
    rw [hm]
    simp [hz]

/-- C6 (amended): a cell whose journey references a present interval-group
id is rendered from that group's stored table; if the id is absent and the
route has no interval group, the cell is `"err"`; if the id is absent and
the route's groups have pairwise distinct parsed identifiers, the first
group's offsets are used (under parsed-id collisions the table stored last
under the first group's parsed id is used instead); in all cases a stop
missing from the used table renders as `"---"` and a present stop as the
computed arrival time. -/
theorem cell_fallback_amended :
    ∀ (resp : TimetableResponse) (tr : TimetableRenderer) (tt : Timetable)
      (j : Journey) (s : stopInfo),
      NewTimetableRenderer resp = .ok tr → resp.Timetable = some tt →
      ((∀ m, tr.intervalData j.IntervalID = some m →
          renderCellContent tr j s = cellOf j s m) ∧
       (tr.targetRoute.StationIntervals = [] →
          renderCellContent tr j s = "err") ∧
       (∀ si0 rest, tr.intervalData j.IntervalID = none →
          tr.targetRoute.StationIntervals = si0 :: rest →
          (tr.targetRoute.StationIntervals.map (fun si => parseInt32 si.ID)).Nodup →
          renderCellContent tr j s =
            cellOf j s (specGroupOffsets tt.DepartureStopID si0.Intervals))) := by
  intro resp tr tt j s hb hT'
  obtain ⟨tt0, route, sched, rest0, hT, hE, hF, hS, htr⟩ := build_ok_elim hb
  have htt : tt0 = tt := by rw [hT] at hT'; exact Option.some_injective _ hT'
  subst htt
  have hdata : tr.intervalData = idataAfter tt0.DepartureStopID route.StationIntervals iemp := by
    rw [htr, mkRenderer_intervalData]
  have hroute : tr.targetRoute = route := by rw [htr, mkRenderer_targetRoute]
  refine ⟨?_, ?_, ?_⟩
  · intro m hm
    simp [renderCellContent, hm, cellOf]
  · intro hsis
    have hsis' : route.StationIntervals = [] := by rw [← hroute]; exact hsis
    have hnone : tr.intervalData j.IntervalID = none := by
      rw [hdata, hsis']
      rfl
    simp [renderCellContent, hnone, hsis]
  · intro si0 rest hnone hsplit hnd
    have hsplit' : route.StationIntervals = si0 :: rest := by rw [← hroute]; exact hsplit
    have hhead : tr.intervalData (parseInt32 si0.ID) =
        some (specGroupOffsets tt0.DepartureStopID si0.Intervals) := by
      rw [hdata, hsplit']
      exact idataAfter_head_of_nodup _ _ _ (by
        rw [← hsplit']
        have := hnd
        rw [hroute] at this
        exact this)
    simp [renderCellContent, hnone, hsplit, hhead, cellOf]

/-- C6 counterexample: group ids `"1"` and `"01"` both parse to 1, so the
fallback for the absent journey group 3 uses the table stored last under
key 1 — the offsets of group `"01"` (arrival `"10:08"`), not those of the
first group `"1"` (`"10:05"`). -/
theorem fallback_collision_counterexample :
    builtCell c6resp c6j c6s = some "10:08" ∧
    cellOf c6j c6s (specGroupOffsets "DEP" c6si0.Intervals) = "10:05" ∧
    ("10:08" : String) ≠ "10:05" :=
  ⟨rfl, rfl, by decide⟩

/-- Witness: `cell_fallback_amended` yields the `"err"` marker on a route
with no interval groups. -/
theorem cell_fallback_witness : builtCell c6wresp c6j c6s = some "err" := by
  have h := (cell_fallback_amended c6wresp
    (mkRenderer c6wresp c6wtt c6wroute c6wsched) c6wtt c6j c6s rfl rfl).2.1 rfl
  show some (renderCellContent (mkRenderer c6wresp c6wtt c6wroute c6wsched) c6j c6s) = some "err"
  rw [h]

/-! ### Resolver lemmas -/

theorem walk_eq_filter : ∀ ps : List Place,
    getSpecificIDsFromChildren ps =
      (descendantIDs ps).filter (fun x => strStartsWith "940G" x)
  | [] => by simp [getSpecificIDsFromChildren, descendantIDs]
  | Place.mk i n c l :: ps => by
    simp only [getSpecificIDsFromChildren, descendantIDs]
    rw [walk_eq_filter c, walk_eq_filter ps]
    rw [List.filter_cons, List.filter_append]
    by_cases h : strStartsWith "940G" i
    · simp [h]
    · simp [h]

theorem not_hub_of_plat (x : String) (h : strStartsWith "940G" x = true) :
    strStartsWith "HUB" x = false := by
  unfold strStartsWith at *
  have e1 : "940G".data = ['9', '4', '0', 'G'] := rfl
  have e2 : "HUB".data = ['H', 'U', 'B'] := rfl
  rw [e1] at h
  rw [e2]
  cases hd : x.data with
  | nil => rw [hd] at h; simp [List.isPrefixOf] at h
  | cons b bs =>
    rw [hd] at h
    simp only [List.isPrefixOf, Bool.and_eq_true, beq_iff_eq] at h
    obtain ⟨rfl, -⟩ := h
    simp [List.isPrefixOf]

theorem mem_walk (x : String) (ps : List Place) (h : x ∈ getSpecificIDsFromChildren ps) :
    strStartsWith "940G" x = true := by
  rw [walk_eq_filter] at h
  exact (List.mem_filter.mp h).2

theorem collectNaptans_chars (n : String) (ps : List Place) :
    ∀ x ∈ collectNaptans n ps,
      strStartsWith "HUB" x = false ∨ strStartsWith "940G" x = true := by
  induction ps with
  | nil => simp [collectNaptans]
  | cons sp rest ih =>
    intro x hx
    unfold collectNaptans at hx
    by_cases h1 : sp.ID = "HUBAMR" ∧ n ≠ "Amersham"
    · rw [if_pos h1] at hx
      exact ih x hx
    · rw [if_neg h1] at hx
      by_cases h2 : strStartsWith "HUB" sp.ID
      · rw [if_pos h2] at hx
        rcases List.mem_append.mp hx with hm | hm
        · exact Or.inr (mem_walk x _ hm)
        · exact ih x hm
      · rw [if_neg h2] at hx
        rcases List.mem_cons.mp hx with rfl | hm
        · exact Or.inl (by simpa using h2)
        · exact ih x hm

theorem hubamr_not_in_naptans (n : String) (ps : List Place) :
    "HUBAMR" ∉ collectNaptans n ps := by
  intro h
  rcases collectNaptans_chars n ps _ h with h1 | h2
  · exact absurd h1 (by decide)
  · exact absurd h2 (by decide)

theorem collectPairs_no_hub (n : String) (hn : n ≠ "Amersham") :
    ∀ ps : List Place, (∀ sp ∈ ps, sp.NaptanID = sp.ID) →
      ∀ pr ∈ collectPairs n ps, strStartsWith "HUB" pr.StopPointID = false := by
  intro ps
  induction ps with
  | nil => simp [collectPairs]
  | cons sp rest ih =>
    intro hview pr hpr
    unfold collectPairs at hpr
    by_cases hc : strStartsWith "HUB" sp.ID = true ∧ (n ≠ "Amersham" ∨ sp.ID ≠ "HUBAMR")
    · rw [if_pos hc] at hpr
      exact ih (fun q hq => hview q (List.mem_cons_of_mem sp hq)) pr hpr
    · rw [if_neg hc] at hpr
      have hnh : strStartsWith "HUB" sp.ID = false := by
        rcases Bool.eq_false_or_eq_true (strStartsWith "HUB" sp.ID) with h | h
        · exact absurd ⟨h, Or.inl hn⟩ hc
        · exact h
      rcases List.mem_append.mp hpr with hm | hm
      · obtain ⟨lr, hlr, rfl⟩ := List.mem_map.mp hm
        show strStartsWith "HUB" sp.NaptanID = false
        rw [hview sp (List.mem_cons_self sp rest)]
        exact hnh
      · exact ih (fun q hq => hview q (List.mem_cons_of_mem sp hq)) pr hm

/-- C4 (amended): before each batch get-details call on a singleton list a
sentinel distinct from the real identifier is appended (`"HUBRMD"` when the
singleton is `"HUBAMR"`, else `"HUBAMR"`); exclusion of sentinel results,
however, is implemented as literal comparisons against `"HUBAMR"` guarded by
the query string `"Amersham"` — a `"HUBAMR"` result is dropped from the
first loop exactly when the query is not `"Amersham"`, and a hub result is
dropped from the second loop unless it is `"HUBAMR"` on an `"Amersham"`
query — so sentinel results are not excluded in general (see the
counterexample). -/
theorem sentinel_workaround_amended :
    (∀ i : String, ∃ d, idsWithWorkaround [i] = [i, d] ∧ d ≠ i) ∧
    (∀ (n : String) (ps : List Place), (collectNaptans n ps).length = 1 →
      ∃ real, collectNaptans n ps = [real] ∧
        naptansWithWorkaround (collectNaptans n ps) = [real, "HUBAMR"] ∧
        real ≠ "HUBAMR") ∧
    (∀ (n : String) (sp : Place) (rest : List Place), sp.ID = "HUBAMR" → n ≠ "Amersham" →
      collectNaptans n (sp :: rest) = collectNaptans n rest) ∧
    (∀ (n : String) (sp : Place) (rest : List Place),
      strStartsWith "HUB" sp.ID = true → (n ≠ "Amersham" ∨ sp.ID ≠ "HUBAMR") →
      collectPairs n (sp :: rest) = collectPairs n rest) := by
  refine ⟨?_, ?_, ?_, ?_⟩
  · intro i
    by_cases h : i = "HUBAMR"
    · exact ⟨"HUBRMD", by simp [idsWithWorkaround, h], by rw [h]; decide⟩
    · exact ⟨"HUBAMR", by simp [idsWithWorkaround, h], Ne.symm h⟩
  · intro n ps hlen
    obtain ⟨real, hreal⟩ := List.length_eq_one.mp hlen
    refine ⟨real, hreal, ?_, ?_⟩
    · rw [hreal]
      simp [naptansWithWorkaround]
    · intro hc
      exact hubamr_not_in_naptans n ps (by rw [hreal, hc]; exact List.mem_singleton.mpr rfl)
  · intro n sp rest h1 h2
    conv_lhs => rw [collectNaptans]
    rw [if_pos ⟨h1, h2⟩]
  · intro n sp rest h1 h2
    conv_lhs => rw [collectPairs]
    rw [if_pos ⟨h1, h2⟩]

/-- C4 counterexample: an `"Amersham"` query whose only search match is the
hub `"HUBAMR"` gets the sentinel `"HUBRMD"` appended, and the sentinel's
Richmond platform line survives into the final output instead of being
excluded. -/
theorem sentinel_passthrough_counterexample :
    getLinesAndStops c4search c4get "Amersham" "tube" =
      [{ LineID := "metropolitan", StopPointID := "940GZZLUAMS" },
       { LineID := "district", StopPointID := "940GZZLURMD" }] ∧
    c4search "Amersham" "tube" = [{ ID := "HUBAMR" }] ∧
    ({ LineID := "district", StopPointID := "940GZZLURMD" } : LineStopPair) ∈
      getLinesAndStops c4search c4get "Amersham" "tube" := by
  have hrun : getLinesAndStops c4search c4get "Amersham" "tube" =
      [{ LineID := "metropolitan", StopPointID := "940GZZLUAMS" },
       { LineID := "district", StopPointID := "940GZZLURMD" }] := by
    simp +decide [getLinesAndStops, c4search, c4get, idsWithWorkaround, naptansWithWorkaround,
      collectNaptans, collectPairs, getSpecificIDsFromChildren, c4amr, c4rmd, c4amsPlat,
      c4rmdPlat, Place.ID, Place.NaptanID, Place.Children, Place.Lines]
  exact ⟨hrun, by decide, by rw [hrun]; decide⟩

/-- Witness: `sentinel_workaround_amended` drops a `"HUBAMR"` result from
the first loop of a non-Amersham query. -/
theorem sentinel_workaround_witness :
    collectNaptans "Richmond" [c4wamr] = [] :=
  (sentinel_workaround_amended.2.2.1 "Richmond" c4wamr [] rfl (by decide)).trans rfl

/-- C5 (amended): the recursive child walk collects exactly the descendant
identifiers carrying the platform prefix `"940G"` (descending through
nested hubs without emitting them, since a hub identifier never carries the
platform prefix); and for every query other than the literal `"Amersham"`,
on upstream data whose stop points report their own identifier as NaptanID,
no hub-prefixed identifier appears as the platform of an emitted pair.  (On
an `"Amersham"` query a `"HUBAMR"` result of the lines fetch is let through
— see the counterexample.) -/
theorem platform_only_amended :
    (∀ ps : List Place, getSpecificIDsFromChildren ps =
        (descendantIDs ps).filter (fun x => strStartsWith "940G" x)) ∧
    (∀ (ps : List Place) (x : String), x ∈ getSpecificIDsFromChildren ps →
        strStartsWith "940G" x = true ∧ strStartsWith "HUB" x = false) ∧
    (∀ (search : String → String → List SearchMatch) (get : List String → List Place)
        (stationName mode : String),
        stationName ≠ "Amersham" →
        (∀ (ids : List String) (sp : Place), sp ∈ get ids → sp.NaptanID = sp.ID) →
        ∀ pr ∈ getLinesAndStops search get stationName mode,
          strStartsWith "HUB" pr.StopPointID = false) := by
  refine ⟨walk_eq_filter, ?_, ?_⟩
  · intro ps x hx
    have h1 := mem_walk x ps hx
    exact ⟨h1, not_hub_of_plat x h1⟩
  · intro search get stationName mode hn hview pr hpr
    unfold getLinesAndStops at hpr
    by_cases h1 : (search stationName mode).isEmpty
    · rw [if_pos h1] at hpr
      simp at hpr
    · rw [if_neg h1] at hpr
      by_cases h2 : (collectNaptans stationName
          (get (idsWithWorkaround (List.map (fun m => m.ID) (search stationName mode))))).isEmpty
      · rw [if_pos h2] at hpr
        simp at hpr
      · rw [if_neg h2] at hpr
        exact collectPairs_no_hub stationName hn _ (fun sp hsp => hview _ sp hsp) pr hpr

/-- C5 counterexample: on an `"Amersham"` query with a single platform
match, the second-call sentinel `"HUBAMR"` is let through the hub filter and
its hub-level identifier is emitted as the platform of a pair — even though
every stop point reports its own identifier as NaptanID. -/
theorem hub_in_output_counterexample :
    getLinesAndStops c5search c5get "Amersham" "tube" =
      [{ LineID := "metropolitan", StopPointID := "940GZZLUAMS" },
       { LineID := "metropolitan", StopPointID := "HUBAMR" }] ∧
    strStartsWith "HUB" "HUBAMR" = true := by
  constructor
  · simp +decide [getLinesAndStops, c5search, c5get, idsWithWorkaround, naptansWithWorkaround,
      collectNaptans, collectPairs, getSpecificIDsFromChildren, c5amsPlat, c5amrHub,
      Place.ID, Place.NaptanID, Place.Children, Place.Lines]
  · decide

/-- Witness: `platform_only_amended` applied to a concrete Richmond query
whose resolved pair is platform-level. -/
theorem platform_only_witness :
    strStartsWith "HUB" (LineStopPair.mk "district" "940GZZLURMD").StopPointID = false := by
  have hview : ∀ (ids : List String) (sp : Place), sp ∈ c5wget ids → sp.NaptanID = sp.ID := by
    intro ids sp h
    by_cases hc : ids = ["940GZZLURMD", "HUBAMR"]
    · rw [c5wget] at h
      rw [if_pos hc] at h
      rcases List.mem_cons.mp h with rfl | h2
      · rfl
      · rcases List.mem_singleton.mp h2 with rfl
        rfl
    · rw [c5wget] at h
      rw [if_neg hc] at h
      simp at h
  have hmem : (LineStopPair.mk "district" "940GZZLURMD") ∈
      getLinesAndStops c5wsearch c5wget "Richmond" "tube" := by
    have hrun : getLinesAndStops c5wsearch c5wget "Richmond" "tube" =
        [{ LineID := "district", StopPointID := "940GZZLURMD" }] := by
      simp +decide [getLinesAndStops, c5wsearch, c5wget, idsWithWorkaround,
        naptansWithWorkaround, collectNaptans, collectPairs, getSpecificIDsFromChildren,
        c5wrmdPlat, c5wamrHub, Place.ID, Place.NaptanID, Place.Children, Place.Lines]
    rw [hrun]
    exact List.mem_singleton.mpr rfl
  exact platform_only_amended.2.2 c5wsearch c5wget "Richmond" "tube" (by decide) hview
    (LineStopPair.mk "district" "940GZZLURMD") hmem
